import Mathlib

/-!
Shallow embedding of the gpu-checkpoint core (Rust) in Lean 4, together with
theorems settling the specification claims about it.

Modelling conventions:
* Rust `u32` / `u64` / `usize` values are `Nat` with explicit reduction
  `% 2^32` / `% 2^64` wherever the source performs arithmetic that can wrap
  (release-mode wrapping semantics); `usize` is 64-bit.
* File contents are `List Nat` of byte values; the checkpoint writer emits
  such a list and the restore reader consumes one.
* Wall-clock values (`SystemTime`, durations) are not modelled: the
  `timestamp` written into a checkpoint header is a plain `Nat` parameter and
  `duration_ms` fields are fixed to 0.
* procfs access is abstracted into explicit inputs: the environment-variable
  list for `has_gpu_environment`, the payload produced by the `/proc/pid/mem`
  sliding copy for the checkpoint writer, and a per-allocation write outcome
  for the restore writer.
-/

/-! ## Machine-integer helpers -/

def u32lim : Nat := 4294967296

def u64lim : Nat := 18446744073709551616

/-- Wrapping 64-bit addition (Rust release-mode `+` on `u64`/`usize`). -/
def u64add (a b : Nat) : Nat := (a + b) % u64lim

/-- Wrapping 64-bit subtraction (Rust release-mode `-` on `u64`), for
arguments already reduced below `2^64`. -/
def u64sub (a b : Nat) : Nat := (a + u64lim - b) % u64lim

/-! ## Data model: `src/detector/types.rs` -/

inductive GpuVendor
  | Nvidia
  | Amd
  | Intel
  | Unknown
deriving DecidableEq

inductive AllocationType
  | Standard
  | Uvm
  | Managed
  | Ipc
  | Distributed
  | BarMapped
  | HostPinned
  | Unknown
deriving DecidableEq

structure AllocationMetadata where
  is_distributed : Bool := false
  numa_node : Option Nat := none
  backing_file : Option String := none
  protection : String := ""
  is_shared : Bool := false
deriving DecidableEq

structure GpuAllocation where
  vaddr_start : Nat
  vaddr_end : Nat
  size : Nat
  alloc_type : AllocationType
  device_id : Option Nat := none
  fd : Option Int := none
  metadata : AllocationMetadata := {}
deriving DecidableEq

/-- `GpuAllocation::new`: `size` is derived as `end - start` (u64). -/
def GpuAllocation.new (start end_ : Nat) (alloc_type : AllocationType) : GpuAllocation :=
  { vaddr_start := start
    vaddr_end := end_
    size := u64sub end_ start
    alloc_type := alloc_type }

/-- `GpuAllocation::is_problematic`. -/
def GpuAllocation.is_problematic (a : GpuAllocation) : Bool :=
  match a.alloc_type with
  | .Uvm | .Managed | .Ipc | .Distributed => true
  | _ => false

structure DetectionStats where
  standard_allocations : Nat := 0
  uvm_allocations : Nat := 0
  managed_allocations : Nat := 0
  ipc_allocations : Nat := 0
  distributed_allocations : Nat := 0
  total_size : Nat := 0
  largest_allocation : Nat := 0
deriving DecidableEq

/-- `DetectionResult` (the `timestamp: SystemTime` field is not modelled;
no claim concerns it). -/
structure DetectionResult where
  pid : Nat
  vendor : GpuVendor
  allocations : List GpuAllocation
  total_gpu_memory : Nat
  stats : DetectionStats
deriving DecidableEq

/-- `DetectionResult::new`. -/
def DetectionResult.new (pid : Nat) (vendor : GpuVendor) : DetectionResult :=
  { pid := pid
    vendor := vendor
    allocations := []
    total_gpu_memory := 0
    stats := {} }

/-- The per-type counter bump inside `add_allocation` (the Rust `match` on
`allocation.alloc_type`; `BarMapped`, `HostPinned`, `Unknown` fall into the
`_ => {}` arm). -/
def bumpTypeCounter (s : DetectionStats) : AllocationType → DetectionStats
  | .Standard => { s with standard_allocations := u64add s.standard_allocations 1 }
  | .Uvm => { s with uvm_allocations := u64add s.uvm_allocations 1 }
  | .Managed => { s with managed_allocations := u64add s.managed_allocations 1 }
  | .Ipc => { s with ipc_allocations := u64add s.ipc_allocations 1 }
  | .Distributed => { s with distributed_allocations := u64add s.distributed_allocations 1 }
  | _ => s

/-- `DetectionResult::add_allocation`. -/
def DetectionResult.add_allocation (r : DetectionResult) (a : GpuAllocation) : DetectionResult :=
  { r with
    total_gpu_memory := u64add r.total_gpu_memory a.size
    stats := bumpTypeCounter
      { r.stats with
        total_size := u64add r.stats.total_size a.size
        largest_allocation :=
          if a.size > r.stats.largest_allocation then a.size
          else r.stats.largest_allocation }
      a.alloc_type
    allocations := r.allocations ++ [a] }

/-- `DetectionResult::has_problematic_allocations`. -/
def DetectionResult.has_problematic_allocations (r : DetectionResult) : Bool :=
  r.allocations.any (fun a => a.is_problematic)

/-! ## Strategy selector: `src/checkpoint/mod.rs` -/

inductive CheckpointStrategy
  | CudaCheckpoint
  | BarSliding
  | Hybrid
  | SkipGpu
deriving DecidableEq

/-- `CheckpointEngine::select_strategy`. -/
def CheckpointEngine.select_strategy (detection : DetectionResult) : CheckpointStrategy :=
  if detection.allocations.isEmpty then CheckpointStrategy.SkipGpu
  else if detection.has_problematic_allocations then CheckpointStrategy.BarSliding
  else CheckpointStrategy.CudaCheckpoint

/-! ## Measuring functions (specification side) -/

/-- Sum of `a.size` over a list of allocations. -/
def sumSizes : List GpuAllocation → Nat
  | [] => 0
  | a :: l => a.size + sumSizes l

/-- Maximum of `a.size` over a list of allocations (0 when empty). -/
def maxSize : List GpuAllocation → Nat
  | [] => 0
  | a :: l => max a.size (maxSize l)

/-- Number of allocations of a given type. -/
def countType : List GpuAllocation → AllocationType → Nat
  | [], _ => 0
  | a :: l, t => (if a.alloc_type = t then 1 else 0) + countType l t

/-- The five allocation types that `add_allocation` keeps a counter for. -/
def countedFive (t : AllocationType) : Bool :=
  match t with
  | .Standard | .Uvm | .Managed | .Ipc | .Distributed => true
  | _ => false

/-- Number of allocations whose type has a dedicated counter. -/
def countFive : List GpuAllocation → Nat
  | [] => 0
  | a :: l => (if countedFive a.alloc_type then 1 else 0) + countFive l

/-- A `DetectionResult` built from an empty result by a sequence of
`add_allocation` calls, in order. -/
def buildResult (pid : Nat) (vendor : GpuVendor) (l : List GpuAllocation) : DetectionResult :=
  l.foldl DetectionResult.add_allocation (DetectionResult.new pid vendor)

/-! ## String helpers -/

/-- Substring search on character lists: true iff `pat` occurs contiguously
inside the second list. Models Rust `str::contains(pat)`. -/
def containsSub (pat : List Char) : List Char → Bool
  | [] => pat.isEmpty
  | c :: rest => pat.isPrefixOf (c :: rest) || containsSub pat rest

/-- Rust `hay.contains(pat)` for string patterns. -/
def strContains (hay pat : String) : Bool := containsSub pat.data hay.data

/-- Rust `s.starts_with(pre)`. -/
def strStartsWith (s pre : String) : Bool := pre.data.isPrefixOf s.data

/-- Rust `s.contains(c)` for a single character. -/
def strContainsChar (s : String) (c : Char) : Bool := s.data.contains c

/-! ## FD scanner / process metadata: `src/detector/process.rs`

`has_gpu_environment(pid)` first reads `/proc/<pid>/environ` through
`check_process_environ`; the procfs read is abstracted away and the parsed
`(key, value)` list is the input of the model. -/

def gpu_env_patterns : List String :=
  ["CUDA_VISIBLE_DEVICES", "NVIDIA_VISIBLE_DEVICES", "NVIDIA_DRIVER_CAPABILITIES",
   "LD_LIBRARY_PATH", "ROCR_VISIBLE_DEVICES", "HIP_VISIBLE_DEVICES"]

/-- `ProcessScanner::has_gpu_environment`, as a function of the parsed
environment. The Rust loop returns `true` at the first entry whose key
contains one of the patterns, or whose key equals `LD_LIBRARY_PATH` with a
value containing `cuda`/`nvidia`/`rocm`; `List.any` of the disjunction has
the same value. -/
def ProcessScanner.has_gpu_environment (env_vars : List (String × String)) : Bool :=
  env_vars.any fun kv =>
    (gpu_env_patterns.any fun p => strContains kv.1 p) ||
    (kv.1 == "LD_LIBRARY_PATH" &&
      (strContains kv.2 "cuda" || strContains kv.2 "nvidia" || strContains kv.2 "rocm"))

/-! ## Memory-map classifier: `src/detector/memory.rs` -/

/-- One parsed `/proc/<pid>/maps` line. The source field `end` is a Lean
keyword and is rendered `end_`. -/
structure MemoryRegion where
  start : Nat
  end_ : Nat
  perms : String
  offset : Nat
  dev : String
  inode : Nat
  pathname : Option String
deriving DecidableEq

/-- `MemoryMapParser::classify_region`. The Rust second branch
(`pathname == "[heap]" || starts_with("[anon:")`) only returns when the
region is at least 64 MiB and otherwise falls through to the PCI BAR check;
the chained `else if` with the conjoined size condition has exactly that
fall-through semantics. -/
def MemoryMapParser.classify_region (region : MemoryRegion) : Option GpuAllocation :=
  match region.pathname with
  | none => none
  | some pathname =>
    if strContains pathname "/dev/nvidia" then
      let alloc_type :=
        if strContains pathname "nvidia-uvm" then AllocationType.Uvm
        else AllocationType.Standard
      let allocation := GpuAllocation.new region.start region.end_ alloc_type
      some { allocation with metadata :=
        { backing_file := some pathname
          protection := region.perms
          is_shared := strContainsChar region.perms 's' } }
    else if (pathname == "[heap]" || strStartsWith pathname "[anon:") &&
        1024 * 1024 * 64 ≤ u64sub region.end_ region.start then
      let allocation := GpuAllocation.new region.start region.end_ AllocationType.Unknown
      some { allocation with metadata :=
        { allocation.metadata with protection := region.perms } }
    else if strContains pathname "/sys/bus/pci/devices/" && strContains pathname "resource" then
      let allocation := GpuAllocation.new region.start region.end_ AllocationType.BarMapped
      some { allocation with metadata :=
        { allocation.metadata with
          backing_file := some pathname
          protection := region.perms } }
    else none

/-! ## Little-endian byte codec -/

/-- `w`-byte little-endian encoding of `n` (Rust `to_le_bytes` after the
implicit reduction of `n` modulo `2^(8*w)`). -/
def toLE : Nat → Nat → List Nat
  | 0, _ => []
  | w + 1, n => n % 256 :: toLE w (n / 256)

/-- Little-endian decoding (Rust `from_le_bytes`). -/
def fromLE : List Nat → Nat
  | [] => 0
  | b :: bs => b + 256 * fromLE bs

/-- `read_exact` of `n` bytes from the remaining file contents: the bytes
read and the rest, or `none` when the file is too short (Rust
`ErrorKind::UnexpectedEof`). -/
def readN (n : Nat) (f : List Nat) : Option (List Nat × List Nat) :=
  if n ≤ f.length then some (f.take n, f.drop n) else none

/-! ## Checkpoint writer: `src/checkpoint/bar_sliding.rs` -/

def CHECKPOINT_MAGIC : Nat := 0x47505543

def CHECKPOINT_VERSION : Nat := 1

structure CheckpointHeader where
  magic : Nat
  version : Nat
  pid : Nat
  num_allocations : Nat
  total_size : Nat
  timestamp : Nat
deriving DecidableEq

structure AllocationHeader where
  vaddr_start : Nat
  vaddr_end : Nat
  size : Nat
  device_id : Nat
  flags : Nat
deriving DecidableEq

/-- `BarSlidingCheckpoint::write_header`: six little-endian fields,
32 bytes in total. -/
def write_header (header : CheckpointHeader) : List Nat :=
  toLE 4 header.magic ++ toLE 4 header.version ++ toLE 4 header.pid ++
  toLE 4 header.num_allocations ++ toLE 8 header.total_size ++ toLE 8 header.timestamp

/-- `BarSlidingCheckpoint::write_allocation_header`: 32 bytes. -/
def write_allocation_header (header : AllocationHeader) : List Nat :=
  toLE 8 header.vaddr_start ++ toLE 8 header.vaddr_end ++ toLE 8 header.size ++
  toLE 4 header.device_id ++ toLE 4 header.flags

/-- The `AllocationHeader` the writer builds for an allocation. -/
def allocHeaderOf (a : GpuAllocation) : AllocationHeader :=
  { vaddr_start := a.vaddr_start
    vaddr_end := a.vaddr_end
    size := a.size
    device_id := a.device_id.getD 0
    flags := 0 }

/-- `BarSlidingCheckpoint::write_zeros` (the fallback when `/proc/<pid>/mem`
is absent): exactly `size` zero bytes. -/
def write_zeros (size : Nat) : List Nat := List.replicate size 0

/-- `BarSlidingCheckpoint::checkpoint_allocation`, parameterised by
`copyPayload`: the payload bytes that the sliding copy from
`/proc/<pid>/mem` emits for the allocation. In degraded mode that is
`write_zeros a.size`; with a readable source it is the bytes read, whose
length is `a.size` unless a short read truncates the copy loop. The
returned number is the byte count the writer credits (`Ok(allocation.size)`
in the source, independent of the copy). -/
def checkpoint_allocation (copyPayload : GpuAllocation → List Nat) (a : GpuAllocation) :
    List Nat × Nat :=
  (write_allocation_header (allocHeaderOf a) ++ copyPayload a, a.size)

/-- The per-allocation loop of `checkpoint_process`: emitted bytes and the
final `total_written` accumulator (u64 additions). -/
def checkpoint_body (copyPayload : GpuAllocation → List Nat) :
    List GpuAllocation → Nat → List Nat × Nat
  | [], acc => ([], acc)
  | a :: l, acc =>
    let entry := checkpoint_allocation copyPayload a
    let rest := checkpoint_body copyPayload l (u64add acc entry.2)
    (entry.1 ++ rest.1, rest.2)

structure CheckpointMetadata where
  pid : Nat
  size_bytes : Nat
  duration_ms : Nat
  num_allocations : Nat
deriving DecidableEq

/-- `BarSlidingCheckpoint::checkpoint_process`: the produced file contents
and the returned metadata. `timestamp` stands for the wall-clock seconds the
source obtains from `SystemTime::now()`; the `path` metadata field and the
progress bar are not modelled. `detection.allocations.len() as u32` is the
source's cast. -/
def checkpoint_process (pid : Nat) (detection : DetectionResult)
    (copyPayload : GpuAllocation → List Nat) (timestamp : Nat) :
    List Nat × CheckpointMetadata :=
  let header : CheckpointHeader :=
    { magic := CHECKPOINT_MAGIC
      version := CHECKPOINT_VERSION
      pid := pid
      num_allocations := detection.allocations.length % u32lim
      total_size := detection.total_gpu_memory
      timestamp := timestamp }
  let body := checkpoint_body copyPayload detection.allocations 0
  (write_header header ++ body.1,
   { pid := pid
     size_bytes := body.2
     duration_ms := 0
     num_allocations := detection.allocations.length })

/-! ## Restore reader: `src/restore/bar_restore.rs` -/

/-- The closed error taxonomy of `src/lib.rs` (`IoError` carries the inner
`std::io::Error`, rendered as a message string). -/
inductive GpuCheckpointError
  | DetectionError (msg : String)
  | CheckpointError (msg : String)
  | RestoreError (msg : String)
  | IoError (msg : String)
  | ProcessNotFound (pid : Nat)
  | PermissionDenied
  | GpuDeviceError (msg : String)
  | StrategyError (msg : String)
deriving DecidableEq

structure RestoreMetadata where
  pid : Nat
  num_allocations : Nat
  total_size : Nat
  duration_ms : Nat
deriving DecidableEq

/-- `BarRestore::read_header`: six exact-length little-endian reads; a short
read surfaces as `IoError`. -/
def read_header (f : List Nat) :
    Except GpuCheckpointError (CheckpointHeader × List Nat) :=
  match readN 4 f with
  | none => .error (.IoError "failed to fill whole buffer")
  | some (bmagic, f) =>
  match readN 4 f with
  | none => .error (.IoError "failed to fill whole buffer")
  | some (bversion, f) =>
  match readN 4 f with
  | none => .error (.IoError "failed to fill whole buffer")
  | some (bpid, f) =>
  match readN 4 f with
  | none => .error (.IoError "failed to fill whole buffer")
  | some (bnum, f) =>
  match readN 8 f with
  | none => .error (.IoError "failed to fill whole buffer")
  | some (btotal, f) =>
  match readN 8 f with
  | none => .error (.IoError "failed to fill whole buffer")
  | some (bts, f) =>
    .ok ({ magic := fromLE bmagic
           version := fromLE bversion
           pid := fromLE bpid
           num_allocations := fromLE bnum
           total_size := fromLE btotal
           timestamp := fromLE bts }, f)

/-- `BarRestore::read_allocation_header`. -/
def read_allocation_header (f : List Nat) :
    Except GpuCheckpointError (AllocationHeader × List Nat) :=
  match readN 8 f with
  | none => .error (.IoError "failed to fill whole buffer")
  | some (bstart, f) =>
  match readN 8 f with
  | none => .error (.IoError "failed to fill whole buffer")
  | some (bend, f) =>
  match readN 8 f with
  | none => .error (.IoError "failed to fill whole buffer")
  | some (bsize, f) =>
  match readN 4 f with
  | none => .error (.IoError "failed to fill whole buffer")
  | some (bdev, f) =>
  match readN 4 f with
  | none => .error (.IoError "failed to fill whole buffer")
  | some (bflags, f) =>
    .ok ({ vaddr_start := fromLE bstart
           vaddr_end := fromLE bend
           size := fromLE bsize
           device_id := fromLE bdev
           flags := fromLE bflags }, f)

/-- `BarRestore::validate_header` (the formatted hex detail of the source
messages is abbreviated; only the error kind matters to the claims). -/
def validate_header (header : CheckpointHeader) : Except GpuCheckpointError Unit :=
  if header.magic ≠ CHECKPOINT_MAGIC then
    .error (.RestoreError "Invalid checkpoint magic")
  else if header.version ≠ CHECKPOINT_VERSION then
    .error (.RestoreError "Unsupported checkpoint version")
  else .ok ()

/-- Outcome of the sliding write into the target's `/proc/<pid>/mem` for one
allocation: either every chunk write succeeds, or the write fails (open,
seek, or a `write_all`) after `k` payload bytes have already been consumed
from the checkpoint file (`k = 0` for an open/seek failure; a failing first
`write_all` has `k = min(size, window)`). -/
inductive MemWriteOutcome
  | success
  | failAfter (k : Nat)
deriving DecidableEq

/-- `BarRestore::skip_allocation_data`: plain reads that discard up to
`size` bytes, stopping early at end of file (never an error in the model;
the source only fails here on a low-level read error). -/
def skip_allocation_data (size : Nat) (f : List Nat) : List Nat := f.drop size

/-- `BarRestore::restore_allocation`: returns the credited byte count and
the remaining file contents. With an existing target mem a successful
sliding write consumes `min(size, remaining)` bytes; on a failure after `k`
consumed bytes the source then calls `skip_allocation_data(size)`, which
discards up to `size` FURTHER bytes. Without a target mem the payload is
skipped. In every case the source returns `Ok(alloc_header.size)`. -/
def restore_allocation (memExists : Bool) (w : MemWriteOutcome)
    (alloc_header : AllocationHeader) (f : List Nat) : Nat × List Nat :=
  if memExists then
    match w with
    | .success => (alloc_header.size, f.drop alloc_header.size)
    | .failAfter k =>
        (alloc_header.size, skip_allocation_data alloc_header.size (f.drop k))
  else
    (alloc_header.size, skip_allocation_data alloc_header.size f)

/-- The `for idx in 0..header.num_allocations` loop of
`restore_from_checkpoint`; `w idx` is the write outcome for allocation
`idx`, `acc` the running u64 `total_restored`. -/
def restore_loop (memExists : Bool) (w : Nat → MemWriteOutcome) :
    Nat → Nat → List Nat → Nat → Except GpuCheckpointError (Nat × List Nat)
  | 0, _, f, acc => .ok (acc, f)
  | n + 1, idx, f, acc =>
    match read_allocation_header f with
    | .error e => .error e
    | .ok (alloc_header, f1) =>
      let r := restore_allocation memExists (w idx) alloc_header f1
      restore_loop memExists w n (idx + 1) r.2 (u64add acc r.1)

/-- `BarRestore::restore_from_checkpoint`. `memExists` is whether
`/proc/<target>/mem` exists (`false` is the degraded verification mode). -/
def restore_from_checkpoint (memExists : Bool) (w : Nat → MemWriteOutcome)
    (f : List Nat) (target_pid : Option Nat) :
    Except GpuCheckpointError RestoreMetadata :=
  match read_header f with
  | .error e => .error e
  | .ok (header, f1) =>
    match validate_header header with
    | .error e => .error e
    | .ok _ =>
      let pid := target_pid.getD header.pid
      match restore_loop memExists w header.num_allocations 0 f1 0 with
      | .error e => .error e
      | .ok (total_restored, _) =>
        .ok { pid := pid
              num_allocations := header.num_allocations
              total_size := total_restored
              duration_ms := 0 }

/-! ## Concrete data used by witnesses and counterexamples -/

/-- The relation between a `DetectionResult`'s cached fields and its
allocation sequence that `add_allocation` maintains (u64 fields reduced
modulo `2^64`). -/
def statsFaithful (r : DetectionResult) : Prop :=
  r.total_gpu_memory = sumSizes r.allocations % u64lim ∧
  r.stats.total_size = sumSizes r.allocations % u64lim ∧
  r.stats.largest_allocation = maxSize r.allocations ∧
  r.stats.standard_allocations = countType r.allocations AllocationType.Standard % u64lim ∧
  r.stats.uvm_allocations = countType r.allocations AllocationType.Uvm % u64lim ∧
  r.stats.managed_allocations = countType r.allocations AllocationType.Managed % u64lim ∧
  r.stats.ipc_allocations = countType r.allocations AllocationType.Ipc % u64lim ∧
  r.stats.distributed_allocations = countType r.allocations AllocationType.Distributed % u64lim

/-- The bytes of the per-allocation section of a checkpoint file. -/
def entriesBytes (copyPayload : GpuAllocation → List Nat) : List GpuAllocation → List Nat
  | [] => []
  | a :: l => write_allocation_header (allocHeaderOf a) ++ copyPayload a ++
      entriesBytes copyPayload l

def emptyDetection : DetectionResult := DetectionResult.new 1234 GpuVendor.Nvidia

def uvmDetection : DetectionResult :=
  (DetectionResult.new 1234 GpuVendor.Nvidia).add_allocation
    (GpuAllocation.new 0x100000000 0x200000000 AllocationType.Uvm)

def standardDetection : DetectionResult :=
  (DetectionResult.new 1234 GpuVendor.Nvidia).add_allocation
    (GpuAllocation.new 0x100000000 0x200000000 AllocationType.Standard)

def invariantWitnessAllocs : List GpuAllocation :=
  [GpuAllocation.new 4096 8192 AllocationType.Standard,
   GpuAllocation.new 0 1024 AllocationType.Uvm]

def counterWitnessAllocs : List GpuAllocation :=
  [GpuAllocation.new 0 16 AllocationType.Standard,
   GpuAllocation.new 0 32 AllocationType.BarMapped,
   GpuAllocation.new 0 64 AllocationType.Ipc]

def zeroMagicHeader : CheckpointHeader :=
  { magic := 0, version := 1, pid := 0, num_allocations := 0, total_size := 0, timestamp := 0 }

def versionTwoHeader : CheckpointHeader :=
  { magic := 0x47505543, version := 2, pid := 0, num_allocations := 0, total_size := 0,
    timestamp := 0 }

def goodEmptyHeader : CheckpointHeader :=
  { magic := 0x47505543, version := 1, pid := 0, num_allocations := 0, total_size := 0,
    timestamp := 0 }

def creditWitnessDetection : DetectionResult :=
  (DetectionResult.new 99 GpuVendor.Nvidia).add_allocation
    (GpuAllocation.new 0x1000 0x3000 AllocationType.Standard)

def overconsumeAllocHeader : AllocationHeader :=
  { vaddr_start := 0, vaddr_end := 8, size := 8, device_id := 0, flags := 0 }

def anonCudaSmall : MemoryRegion :=
  { start := 0x1000, end_ := 0x2000, perms := "rw-p", offset := 0, dev := "00:00",
    inode := 0, pathname := some "[anon:cuda_alloc]" }

def anonCudaLarge : MemoryRegion :=
  { start := 0x100000000, end_ := 0x110000000, perms := "rw-p", offset := 0, dev := "00:00",
    inode := 0, pathname := some "[anon:cuda_alloc]" }

/-! ## Helper lemmas about the measuring functions -/

theorem ite_gt_max (a b : Nat) : (if a > b then a else b) = max b a := by
  rcases Nat.lt_or_ge b a with h | h
  · rw [if_pos h, Nat.max_eq_right (Nat.le_of_lt h)]
  · rw [if_neg (Nat.not_lt.mpr h), Nat.max_eq_left h]

theorem sumSizes_append (l : List GpuAllocation) (a : GpuAllocation) :
    sumSizes (l ++ [a]) = sumSizes l + a.size := by
  induction l with
  | nil => simp [sumSizes]
  | cons b l ih => simp [sumSizes, ih]; omega

theorem maxSize_append (l : List GpuAllocation) (a : GpuAllocation) :
    maxSize (l ++ [a]) = max (maxSize l) a.size := by
  induction l with
  | nil => simp [maxSize]
  | cons b l ih => simp [maxSize, ih, Nat.max_assoc]

theorem countType_append (l : List GpuAllocation) (a : GpuAllocation) (t : AllocationType) :
    countType (l ++ [a]) t = countType l t + (if a.alloc_type = t then 1 else 0) := by
  induction l with
  | nil => simp [countType]
  | cons b l ih => simp [countType, ih]; omega

theorem countType_le_length (l : List GpuAllocation) (t : AllocationType) :
    countType l t ≤ l.length := by
  induction l with
  | nil => simp [countType]
  | cons b l ih =>
    simp only [countType, List.length_cons]
    split <;> omega

theorem countFive_eq (l : List GpuAllocation) :
    countFive l =
      countType l AllocationType.Standard + countType l AllocationType.Uvm +
      countType l AllocationType.Managed + countType l AllocationType.Ipc +
      countType l AllocationType.Distributed := by
  induction l with
  | nil => simp [countFive, countType]
  | cons b l ih =>
    simp only [countFive, countType, ih]
    cases b.alloc_type <;> simp [countedFive] <;> omega

/-! ## The `add_allocation` invariant -/

theorem bumpTypeCounter_total_size (s : DetectionStats) (t : AllocationType) :
    (bumpTypeCounter s t).total_size = s.total_size := by
  cases t <;> rfl

theorem bumpTypeCounter_largest (s : DetectionStats) (t : AllocationType) :
    (bumpTypeCounter s t).largest_allocation = s.largest_allocation := by
  cases t <;> rfl

theorem bumpTypeCounter_standard (s : DetectionStats) (t : AllocationType) :
    (bumpTypeCounter s t).standard_allocations =
      if t = AllocationType.Standard then u64add s.standard_allocations 1
      else s.standard_allocations := by
  cases t <;> rfl

theorem bumpTypeCounter_uvm (s : DetectionStats) (t : AllocationType) :
    (bumpTypeCounter s t).uvm_allocations =
      if t = AllocationType.Uvm then u64add s.uvm_allocations 1
      else s.uvm_allocations := by
  cases t <;> rfl

theorem bumpTypeCounter_managed (s : DetectionStats) (t : AllocationType) :
    (bumpTypeCounter s t).managed_allocations =
      if t = AllocationType.Managed then u64add s.managed_allocations 1
      else s.managed_allocations := by
  cases t <;> rfl

theorem bumpTypeCounter_ipc (s : DetectionStats) (t : AllocationType) :
    (bumpTypeCounter s t).ipc_allocations =
      if t = AllocationType.Ipc then u64add s.ipc_allocations 1
      else s.ipc_allocations := by
  cases t <;> rfl

theorem bumpTypeCounter_distributed (s : DetectionStats) (t : AllocationType) :
    (bumpTypeCounter s t).distributed_allocations =
      if t = AllocationType.Distributed then u64add s.distributed_allocations 1
      else s.distributed_allocations := by
  cases t <;> rfl

theorem statsFaithful_new (pid : Nat) (vendor : GpuVendor) :
    statsFaithful (DetectionResult.new pid vendor) := by
  refine ⟨?_, ?_, ?_, ?_, ?_, ?_, ?_, ?_⟩ <;>
    simp [DetectionResult.new, sumSizes, maxSize, countType]

theorem counter_step (c cnt : Nat) (cond : Bool) (h : c = cnt % u64lim) :
    (if cond = true then u64add c 1 else c) =
      (cnt + (if cond = true then 1 else 0)) % u64lim := by
  cases cond with
  | false => simpa using h
  | true => simp [u64add, h, Nat.mod_add_mod]

theorem statsFaithful_add (r : DetectionResult) (a : GpuAllocation)
    (h : statsFaithful r) : statsFaithful (r.add_allocation a) := by
  obtain ⟨h1, h2, h3, h4, h5, h6, h7, h8⟩ := h
  unfold DetectionResult.add_allocation
  refine ⟨?_, ?_, ?_, ?_, ?_, ?_, ?_, ?_⟩
  · simp [sumSizes_append, u64add, h1, Nat.mod_add_mod]
  · simp [bumpTypeCounter_total_size, sumSizes_append, u64add, h2, Nat.mod_add_mod]
  · simp only [bumpTypeCounter_largest, maxSize_append, h3]
    exact ite_gt_max a.size (maxSize r.allocations)
  · simp only [bumpTypeCounter_standard, countType_append]
    split
    · rename_i ht; simp [u64add, h4, Nat.mod_add_mod, ht]
    · rename_i ht; simp [h4, ht]
  · simp only [bumpTypeCounter_uvm, countType_append]
    split
    · rename_i ht; simp [u64add, h5, Nat.mod_add_mod, ht]
    · rename_i ht; simp [h5, ht]
  · simp only [bumpTypeCounter_managed, countType_append]
    split
    · rename_i ht; simp [u64add, h6, Nat.mod_add_mod, ht]
    · rename_i ht; simp [h6, ht]
  · simp only [bumpTypeCounter_ipc, countType_append]
    split
    · rename_i ht; simp [u64add, h7, Nat.mod_add_mod, ht]
    · rename_i ht; simp [h7, ht]
  · simp only [bumpTypeCounter_distributed, countType_append]
    split
    · rename_i ht; simp [u64add, h8, Nat.mod_add_mod, ht]
    · rename_i ht; simp [h8, ht]

theorem statsFaithful_foldl (l : List GpuAllocation) :
    ∀ r : DetectionResult, statsFaithful r →
      statsFaithful (l.foldl DetectionResult.add_allocation r) := by
  induction l with
  | nil => intro r h; exact h
  | cons a l ih => intro r h; exact ih _ (statsFaithful_add r a h)

theorem foldl_add_allocations (l : List GpuAllocation) :
    ∀ r : DetectionResult,
      (l.foldl DetectionResult.add_allocation r).allocations = r.allocations ++ l := by
  induction l with
  | nil => intro r; simp
  | cons a l ih =>
    intro r
    rw [List.foldl_cons, ih]
    simp [DetectionResult.add_allocation]

theorem buildResult_allocations (pid : Nat) (vendor : GpuVendor) (l : List GpuAllocation) :
    (buildResult pid vendor l).allocations = l := by
  unfold buildResult
  rw [foldl_add_allocations]
  simp [DetectionResult.new]

theorem statsFaithful_build (pid : Nat) (vendor : GpuVendor) (l : List GpuAllocation) :
    statsFaithful (buildResult pid vendor l) :=
  statsFaithful_foldl l _ (statsFaithful_new pid vendor)

/-! ## Claim C1: strategy selector -/

/-- C1: `select_strategy` is a pure function of the `DetectionResult`: an
empty allocation sequence yields `SkipGpu`; a non-empty sequence containing
a problematic allocation yields `BarSliding`; a non-empty sequence with no
problematic allocation yields `CudaCheckpoint`; `Hybrid` is never
returned. -/
theorem select_strategy_spec (d : DetectionResult) :
    (d.allocations = [] → CheckpointEngine.select_strategy d = CheckpointStrategy.SkipGpu) ∧
    (d.allocations ≠ [] → (∃ a ∈ d.allocations, a.is_problematic = true) →
      CheckpointEngine.select_strategy d = CheckpointStrategy.BarSliding) ∧
    (d.allocations ≠ [] → (∀ a ∈ d.allocations, a.is_problematic = false) →
      CheckpointEngine.select_strategy d = CheckpointStrategy.CudaCheckpoint) ∧
    CheckpointEngine.select_strategy d ≠ CheckpointStrategy.Hybrid := by
  refine ⟨?_, ?_, ?_, ?_⟩
  · intro h
    simp [CheckpointEngine.select_strategy, h]
  · intro h1 h2
    have hne : d.allocations.isEmpty = false := by
      cases hl : d.allocations with
      | nil => exact absurd hl h1
      | cons x xs => simp
    have hp : d.has_problematic_allocations = true :=
      List.any_eq_true.mpr h2
    simp [CheckpointEngine.select_strategy, hne, hp,
      DetectionResult.has_problematic_allocations] at hp ⊢
    simp [hp]
  · intro h1 h2
    have hne : d.allocations.isEmpty = false := by
      cases hl : d.allocations with
      | nil => exact absurd hl h1
      | cons x xs => simp
    have hp : d.has_problematic_allocations = false := by
      unfold DetectionResult.has_problematic_allocations
      cases hany : d.allocations.any (fun a => a.is_problematic) with
      | false => rfl
      | true =>
        obtain ⟨a, ha, hpa⟩ := List.any_eq_true.mp hany
        rw [h2 a ha] at hpa
        exact absurd hpa (by simp)
    simp [CheckpointEngine.select_strategy, hne, hp]
  · unfold CheckpointEngine.select_strategy
    split
    · simp
    · split <;> simp

/-- Witness for C1 at the three end-to-end scenarios of the spec. -/
theorem select_strategy_spec_witness :
    CheckpointEngine.select_strategy emptyDetection = CheckpointStrategy.SkipGpu ∧
    CheckpointEngine.select_strategy uvmDetection = CheckpointStrategy.BarSliding ∧
    CheckpointEngine.select_strategy standardDetection = CheckpointStrategy.CudaCheckpoint ∧
    CheckpointEngine.select_strategy uvmDetection ≠ CheckpointStrategy.Hybrid := by
  refine ⟨(select_strategy_spec emptyDetection).1 rfl,
    (select_strategy_spec uvmDetection).2.1 (by decide) ?_,
    (select_strategy_spec standardDetection).2.2.1 (by decide) ?_,
    (select_strategy_spec uvmDetection).2.2.2⟩
  · exact ⟨GpuAllocation.new 0x100000000 0x200000000 AllocationType.Uvm, by decide, by decide⟩
  · decide

/-! ## Claim C5: `is_problematic` -/

/-- C5: `is_problematic` is true exactly for the allocation types `Uvm`,
`Managed`, `Ipc`, `Distributed` (hence false for `Standard`, `BarMapped`,
`HostPinned`, `Unknown`). -/
theorem is_problematic_iff (a : GpuAllocation) :
    a.is_problematic = true ↔
      (a.alloc_type = AllocationType.Uvm ∨ a.alloc_type = AllocationType.Managed ∨
       a.alloc_type = AllocationType.Ipc ∨ a.alloc_type = AllocationType.Distributed) := by
  unfold GpuAllocation.is_problematic
  cases h : a.alloc_type <;> simp [h]

/-! ## Claim C2: `add_allocation` size invariants -/

/-- C2: for every `DetectionResult` built from an empty result by a sequence
of `add_allocation` calls whose sizes sum below `2^64`:
`total_gpu_memory = stats.total_size = Σ size`, and
`stats.largest_allocation` is the maximum size (0 when empty, which is
`maxSize l`). Quantifying over every list `l` covers the state after every
single `add_allocation` call, since every intermediate state is
`buildResult` of a prefix. -/
theorem add_allocation_invariants (pid : Nat) (vendor : GpuVendor) (l : List GpuAllocation)
    (hsum : sumSizes l < u64lim) :
    (buildResult pid vendor l).allocations = l ∧
    (buildResult pid vendor l).total_gpu_memory = sumSizes l ∧
    (buildResult pid vendor l).stats.total_size = sumSizes l ∧
    (buildResult pid vendor l).stats.largest_allocation = maxSize l := by
  have hb := statsFaithful_build pid vendor l
  have ha := buildResult_allocations pid vendor l
  obtain ⟨h1, h2, h3, _⟩ := hb
  rw [ha] at h1 h2 h3
  exact ⟨ha, by rw [h1, Nat.mod_eq_of_lt hsum],
    by rw [h2, Nat.mod_eq_of_lt hsum], h3⟩

/-- Witness for C2: two allocations of sizes 4096 and 1024. -/
theorem add_allocation_invariants_witness :
    (buildResult 42 GpuVendor.Nvidia invariantWitnessAllocs).total_gpu_memory = 5120 ∧
    (buildResult 42 GpuVendor.Nvidia invariantWitnessAllocs).stats.total_size = 5120 ∧
    (buildResult 42 GpuVendor.Nvidia invariantWitnessAllocs).stats.largest_allocation = 4096 := by
  have h := add_allocation_invariants 42 GpuVendor.Nvidia invariantWitnessAllocs (by decide)
  refine ⟨?_, ?_, ?_⟩
  · rw [h.2.1]; decide
  · rw [h.2.2.1]; decide
  · rw [h.2.2.2]; decide

/-! ## Claim C10: per-type counters -/

/-- C10: only the five types `Standard`, `Uvm`, `Managed`, `Ipc`,
`Distributed` have counters; each counter equals the per-type frequency, so
an allocation of type `BarMapped`, `HostPinned` or `Unknown` changes no
counter, the five counters sum to the number of allocations of the five
counted types, while `total_gpu_memory`, `stats.total_size` and
`stats.largest_allocation` still account for every allocation. -/
theorem add_allocation_type_counters (pid : Nat) (vendor : GpuVendor) (l : List GpuAllocation)
    (hlen : l.length < u64lim) (hsum : sumSizes l < u64lim) :
    (buildResult pid vendor l).stats.standard_allocations = countType l AllocationType.Standard ∧
    (buildResult pid vendor l).stats.uvm_allocations = countType l AllocationType.Uvm ∧
    (buildResult pid vendor l).stats.managed_allocations = countType l AllocationType.Managed ∧
    (buildResult pid vendor l).stats.ipc_allocations = countType l AllocationType.Ipc ∧
    (buildResult pid vendor l).stats.distributed_allocations =
      countType l AllocationType.Distributed ∧
    ((buildResult pid vendor l).stats.standard_allocations +
     (buildResult pid vendor l).stats.uvm_allocations +
     (buildResult pid vendor l).stats.managed_allocations +
     (buildResult pid vendor l).stats.ipc_allocations +
     (buildResult pid vendor l).stats.distributed_allocations) = countFive l ∧
    (buildResult pid vendor l).total_gpu_memory = sumSizes l ∧
    (buildResult pid vendor l).stats.total_size = sumSizes l ∧
    (buildResult pid vendor l).stats.largest_allocation = maxSize l := by
  have hb := statsFaithful_build pid vendor l
  have ha := buildResult_allocations pid vendor l
  obtain ⟨h1, h2, h3, h4, h5, h6, h7, h8⟩ := hb
  rw [ha] at h1 h2 h3 h4 h5 h6 h7 h8
  have hcnt : ∀ t : AllocationType, countType l t % u64lim = countType l t := fun t =>
    Nat.mod_eq_of_lt (Nat.lt_of_le_of_lt (countType_le_length l t) hlen)
  rw [hcnt] at h4 h5 h6 h7 h8
  refine ⟨h4, h5, h6, h7, h8, ?_, ?_, ?_, h3⟩
  · rw [h4, h5, h6, h7, h8, countFive_eq]
  · rw [h1, Nat.mod_eq_of_lt hsum]
  · rw [h2, Nat.mod_eq_of_lt hsum]

/-- Witness for C10: the `BarMapped` allocation is uncounted (counter sum 2
over 3 allocations) but its 32 bytes appear in `total_gpu_memory`. -/
theorem add_allocation_type_counters_witness :
    ((buildResult 7 GpuVendor.Nvidia counterWitnessAllocs).stats.standard_allocations +
     (buildResult 7 GpuVendor.Nvidia counterWitnessAllocs).stats.uvm_allocations +
     (buildResult 7 GpuVendor.Nvidia counterWitnessAllocs).stats.managed_allocations +
     (buildResult 7 GpuVendor.Nvidia counterWitnessAllocs).stats.ipc_allocations +
     (buildResult 7 GpuVendor.Nvidia counterWitnessAllocs).stats.distributed_allocations) = 2 ∧
    counterWitnessAllocs.length = 3 ∧
    (buildResult 7 GpuVendor.Nvidia counterWitnessAllocs).total_gpu_memory = 112 := by
  have h := add_allocation_type_counters 7 GpuVendor.Nvidia counterWitnessAllocs
    (by decide) (by decide)
  refine ⟨?_, by decide, ?_⟩
  · rw [h.2.2.2.2.2.1]; decide
  · rw [h.2.2.2.2.2.2.1]; decide

/-! ## Codec lemmas -/

theorem toLE_length (w : Nat) : ∀ n, (toLE w n).length = w := by
  induction w with
  | zero => intro n; rfl
  | succ k ih => intro n; simp [toLE, ih]

theorem fromLE_toLE (w : Nat) : ∀ n, fromLE (toLE w n) = n % 256 ^ w := by
  induction w with
  | zero => intro n; simp [toLE, fromLE, Nat.mod_one]
  | succ k ih =>
    intro n
    simp only [toLE, fromLE, ih]
    rw [pow_succ', Nat.mod_mul]

theorem fromLE_toLE_4 (n : Nat) : fromLE (toLE 4 n) = n % u32lim := by
  rw [fromLE_toLE]
  norm_num [u32lim]

theorem fromLE_toLE_8 (n : Nat) : fromLE (toLE 8 n) = n % u64lim := by
  rw [fromLE_toLE]
  norm_num [u64lim]

theorem readN_exact (n : Nat) (xs ys : List Nat) (h : xs.length = n) :
    readN n (xs ++ ys) = some (xs, ys) := by
  subst h
  unfold readN
  rw [if_pos (by simp), List.take_left, List.drop_left]

theorem readN_toLE (w n : Nat) (ys : List Nat) :
    readN w (toLE w n ++ ys) = some (toLE w n, ys) :=
  readN_exact w (toLE w n) ys (toLE_length w n)

theorem read_header_write_header (h : CheckpointHeader) (rest : List Nat) :
    read_header (write_header h ++ rest) = .ok
      ({ magic := h.magic % u32lim
         version := h.version % u32lim
         pid := h.pid % u32lim
         num_allocations := h.num_allocations % u32lim
         total_size := h.total_size % u64lim
         timestamp := h.timestamp % u64lim }, rest) := by
  simp [read_header, write_header, List.append_assoc, readN_toLE, fromLE_toLE_4, fromLE_toLE_8]

theorem read_alloc_header_write (ah : AllocationHeader) (rest : List Nat) :
    read_allocation_header (write_allocation_header ah ++ rest) = .ok
      ({ vaddr_start := ah.vaddr_start % u64lim
         vaddr_end := ah.vaddr_end % u64lim
         size := ah.size % u64lim
         device_id := ah.device_id % u32lim
         flags := ah.flags % u32lim }, rest) := by
  simp [read_allocation_header, write_allocation_header, List.append_assoc, readN_toLE,
    fromLE_toLE_4, fromLE_toLE_8]

theorem validate_header_ok (h : CheckpointHeader)
    (hm : h.magic = CHECKPOINT_MAGIC) (hv : h.version = CHECKPOINT_VERSION) :
    validate_header h = .ok () := by
  simp [validate_header, hm, hv]

theorem validate_header_bad_magic (h : CheckpointHeader)
    (hm : h.magic ≠ CHECKPOINT_MAGIC) :
    validate_header h = .error (.RestoreError "Invalid checkpoint magic") := by
  simp [validate_header, hm]

theorem validate_header_bad_version (h : CheckpointHeader)
    (hm : h.magic = CHECKPOINT_MAGIC) (hv : h.version ≠ CHECKPOINT_VERSION) :
    validate_header h = .error (.RestoreError "Unsupported checkpoint version") := by
  simp [validate_header, hm, hv]

/-! ## Restore-loop lemmas -/

theorem read_allocation_header_error_io (f : List Nat) (e : GpuCheckpointError)
    (h : read_allocation_header f = .error e) : ∃ msg, e = .IoError msg := by
  unfold read_allocation_header at h
  repeat' split at h
  all_goals first
    | (injection h with h2; exact ⟨_, h2.symm⟩)
    | exact Except.noConfusion h

theorem restore_loop_error_io (memExists : Bool) (w : Nat → MemWriteOutcome) :
    ∀ (n idx : Nat) (f : List Nat) (acc : Nat) (e : GpuCheckpointError),
      restore_loop memExists w n idx f acc = .error e → ∃ msg, e = .IoError msg := by
  intro n
  induction n with
  | zero =>
    intro idx f acc e h
    exact Except.noConfusion h
  | succ m ih =>
    intro idx f acc e h
    unfold restore_loop at h
    cases hra : read_allocation_header f with
    | error e2 =>
      rw [hra] at h
      injection h with h2
      exact h2 ▸ read_allocation_header_error_io f e2 hra
    | ok pr =>
      rw [hra] at h
      exact ih _ _ _ _ h

theorem checkpoint_body_fst (copyPayload : GpuAllocation → List Nat)
    (l : List GpuAllocation) :
    ∀ acc, (checkpoint_body copyPayload l acc).1 = entriesBytes copyPayload l := by
  induction l with
  | nil => intro acc; rfl
  | cons a l ih =>
    intro acc
    simp [checkpoint_body, checkpoint_allocation, entriesBytes, ih, List.append_assoc]

theorem checkpoint_body_total (copyPayload : GpuAllocation → List Nat)
    (l : List GpuAllocation) :
    ∀ acc, acc < u64lim →
      (checkpoint_body copyPayload l acc).2 = (acc + sumSizes l) % u64lim := by
  induction l with
  | nil =>
    intro acc hacc
    simp [checkpoint_body, sumSizes, Nat.mod_eq_of_lt hacc]
  | cons a l ih =>
    intro acc hacc
    simp only [checkpoint_body, checkpoint_allocation]
    rw [ih (u64add acc a.size) (Nat.mod_lt _ (by norm_num [u64lim]))]
    simp only [u64add, sumSizes, Nat.mod_add_mod]
    rw [Nat.add_assoc]

/-- In degraded restore mode the loop walks a well-formed entry section
(every payload complete) entry by entry, crediting each full size and
ending exactly at the trailing bytes. -/
theorem restore_loop_entries (w : Nat → MemWriteOutcome)
    (copyPayload : GpuAllocation → List Nat) :
    ∀ (l : List GpuAllocation) (rest : List Nat) (idx acc : Nat),
      (∀ a ∈ l, a.size < u64lim) →
      (∀ a ∈ l, (copyPayload a).length = a.size) →
      acc < u64lim →
      restore_loop false w l.length idx (entriesBytes copyPayload l ++ rest) acc =
        .ok ((acc + sumSizes l) % u64lim, rest) := by
  intro l
  induction l with
  | nil =>
    intro rest idx acc _ _ hacc
    simp [entriesBytes, restore_loop, sumSizes, Nat.mod_eq_of_lt hacc]
  | cons a l ih =>
    intro rest idx acc hwf hpay hacc
    have hsize : a.size < u64lim := hwf a (by simp)
    have hlenpay : (copyPayload a).length = a.size := hpay a (by simp)
    have hmod : a.size % u64lim = a.size := Nat.mod_eq_of_lt hsize
    simp only [entriesBytes, List.length_cons, List.append_assoc]
    unfold restore_loop
    rw [read_alloc_header_write]
    simp only [restore_allocation, skip_allocation_data, allocHeaderOf, hmod,
      Bool.false_eq_true, if_false]
    rw [show (copyPayload a ++ (entriesBytes copyPayload l ++ rest)).drop a.size =
        entriesBytes copyPayload l ++ rest from by
      rw [show a.size = (copyPayload a).length from hlenpay.symm, List.drop_left]]
    rw [ih rest (idx + 1) (u64add acc a.size)
      (fun x hx => hwf x (List.mem_cons_of_mem a hx))
      (fun x hx => hpay x (List.mem_cons_of_mem a hx))
      (Nat.mod_lt _ (by norm_num [u64lim]))]
    simp only [u64add, sumSizes, Nat.mod_add_mod]
    rw [Nat.add_assoc]

/-! ## `restore_from_checkpoint` evaluation lemmas -/

theorem restore_from_checkpoint_eq (memExists : Bool) (w : Nat → MemWriteOutcome)
    (f : List Nat) (tgt : Option Nat) (h : CheckpointHeader) (rest : List Nat)
    (total : Nat) (frest : List Nat)
    (hread : read_header f = .ok (h, rest))
    (hm : h.magic = CHECKPOINT_MAGIC) (hv : h.version = CHECKPOINT_VERSION)
    (hloop : restore_loop memExists w h.num_allocations 0 rest 0 = .ok (total, frest)) :
    restore_from_checkpoint memExists w f tgt =
      .ok { pid := tgt.getD h.pid
            num_allocations := h.num_allocations
            total_size := total
            duration_ms := 0 } := by
  unfold restore_from_checkpoint
  simp only [hread, validate_header_ok h hm hv, hloop]

theorem restore_from_checkpoint_bad_header (memExists : Bool) (w : Nat → MemWriteOutcome)
    (f : List Nat) (tgt : Option Nat) (h : CheckpointHeader) (rest : List Nat) (msg : String)
    (hread : read_header f = .ok (h, rest))
    (hval : validate_header h = .error (.RestoreError msg)) :
    restore_from_checkpoint memExists w f tgt = .error (.RestoreError msg) := by
  unfold restore_from_checkpoint
  simp only [hread, hval]

theorem restore_from_checkpoint_no_restore_error (memExists : Bool)
    (w : Nat → MemWriteOutcome) (f : List Nat) (tgt : Option Nat)
    (h : CheckpointHeader) (rest : List Nat)
    (hread : read_header f = .ok (h, rest))
    (hm : h.magic = CHECKPOINT_MAGIC) (hv : h.version = CHECKPOINT_VERSION) :
    ∀ msg, restore_from_checkpoint memExists w f tgt ≠
      .error (GpuCheckpointError.RestoreError msg) := by
  intro msg hcontra
  unfold restore_from_checkpoint at hcontra
  simp only [hread, validate_header_ok h hm hv] at hcontra
  cases hloop : restore_loop memExists w h.num_allocations 0 rest 0 with
  | error e =>
    rw [hloop] at hcontra
    obtain ⟨m2, he⟩ := restore_loop_error_io memExists w _ _ _ _ _ hloop
    subst he
    simp at hcontra
  | ok pr =>
    obtain ⟨total, f2⟩ := pr
    rw [hloop] at hcontra
    simp at hcontra

/-! ## Claim C3: degraded round-trip -/

/-- C3: in degraded restore mode (no `/proc/<target>/mem`), restoring a
checkpoint written by `checkpoint_process` yields `RestoreMetadata` with
`num_allocations = |D.allocations|` and `total_size = Σ a.size`. The
hypotheses are the machine-integer bounds of the source types (`size: u64`,
`len() as u32`) and completeness of the written payloads: `copyPayload`
emits exactly `size` bytes per allocation, which is the case both for the
degraded writer (`write_zeros`) and for an untruncated `/proc/<pid>/mem`
copy. -/
theorem checkpoint_restore_roundtrip (pid : Nat) (d : DetectionResult) (tgt : Option Nat)
    (ts : Nat) (copyPayload : GpuAllocation → List Nat) (w : Nat → MemWriteOutcome)
    (hwf : ∀ a ∈ d.allocations, a.size < u64lim)
    (hpay : ∀ a ∈ d.allocations, (copyPayload a).length = a.size)
    (hlen : d.allocations.length < u32lim)
    (hsum : sumSizes d.allocations < u64lim) :
    ∃ m : RestoreMetadata,
      restore_from_checkpoint false w (checkpoint_process pid d copyPayload ts).1 tgt = .ok m ∧
      m.num_allocations = d.allocations.length ∧
      m.total_size = sumSizes d.allocations := by
  have hlen1 : d.allocations.length % u32lim = d.allocations.length := Nat.mod_eq_of_lt hlen
  have hfile : (checkpoint_process pid d copyPayload ts).1 =
      write_header
        { magic := CHECKPOINT_MAGIC
          version := CHECKPOINT_VERSION
          pid := pid
          num_allocations := d.allocations.length % u32lim
          total_size := d.total_gpu_memory
          timestamp := ts } ++ entriesBytes copyPayload d.allocations := by
    simp [checkpoint_process, checkpoint_body_fst]
  have hread : read_header (checkpoint_process pid d copyPayload ts).1 = .ok
      ({ magic := CHECKPOINT_MAGIC % u32lim
         version := CHECKPOINT_VERSION % u32lim
         pid := pid % u32lim
         num_allocations := d.allocations.length % u32lim % u32lim
         total_size := d.total_gpu_memory % u64lim
         timestamp := ts % u64lim }, entriesBytes copyPayload d.allocations) := by
    rw [hfile]
    exact read_header_write_header _ _
  rw [hlen1, hlen1] at hread
  have hloop := restore_loop_entries w copyPayload d.allocations [] 0 0 hwf hpay
    (by norm_num [u64lim])
  rw [List.append_nil] at hloop
  have heq := restore_from_checkpoint_eq false w _ tgt _ _ _ _ hread
    (by norm_num [u32lim, CHECKPOINT_MAGIC]) (by norm_num [u32lim, CHECKPOINT_VERSION]) hloop
  refine ⟨_, heq, rfl, ?_⟩
  simp [Nat.mod_eq_of_lt hsum]

/-- Witness for C3: the unit-test detection (PID 1234, one `Standard`
allocation `[0x100000, 0x200000)`), degraded writer, restore to target
PID 5678. -/
theorem checkpoint_restore_roundtrip_witness :
    ∃ m : RestoreMetadata,
      restore_from_checkpoint false (fun _ => MemWriteOutcome.success)
        (checkpoint_process 1234
          ((DetectionResult.new 1234 GpuVendor.Nvidia).add_allocation
            (GpuAllocation.new 0x100000 0x200000 AllocationType.Standard))
          (fun a => write_zeros a.size) 0).1 (some 5678) = .ok m ∧
      m.num_allocations = 1 ∧
      m.total_size = 0x100000 := by
  obtain ⟨m, hm, hn, ht⟩ := checkpoint_restore_roundtrip 1234
    ((DetectionResult.new 1234 GpuVendor.Nvidia).add_allocation
      (GpuAllocation.new 0x100000 0x200000 AllocationType.Standard))
    (some 5678) 0 (fun a => write_zeros a.size) (fun _ => MemWriteOutcome.success)
    (by decide)
    (by intro a ha; simp [write_zeros])
    (by decide) (by decide)
  refine ⟨m, hm, ?_, ?_⟩
  · rw [hn]; decide
  · rw [ht]; decide

/-! ## Claim C4: header validation -/

/-- C4: given that a header parses from the file, `restore_from_checkpoint`
fails with a `RestoreError` if and only if the parsed magic differs from
`0x47505543` or the parsed version differs from 1; with a good magic and
version it never produces a `RestoreError` (later failures are `IoError`). -/
theorem restore_error_iff_bad_header (memExists : Bool) (w : Nat → MemWriteOutcome)
    (f : List Nat) (tgt : Option Nat) (h : CheckpointHeader) (rest : List Nat)
    (hread : read_header f = .ok (h, rest)) :
    (∃ msg, restore_from_checkpoint memExists w f tgt =
        .error (GpuCheckpointError.RestoreError msg)) ↔
      (h.magic ≠ CHECKPOINT_MAGIC ∨ h.version ≠ CHECKPOINT_VERSION) := by
  constructor
  · rintro ⟨msg, hmsg⟩
    by_contra hgood
    push_neg at hgood
    exact restore_from_checkpoint_no_restore_error memExists w f tgt h rest hread
      hgood.1 hgood.2 msg hmsg
  · intro hbad
    by_cases hm : h.magic = CHECKPOINT_MAGIC
    · have hv : h.version ≠ CHECKPOINT_VERSION := by tauto
      exact ⟨"Unsupported checkpoint version",
        restore_from_checkpoint_bad_header memExists w f tgt h rest _ hread
          (validate_header_bad_version h hm hv)⟩
    · exact ⟨"Invalid checkpoint magic",
        restore_from_checkpoint_bad_header memExists w f tgt h rest _ hread
          (validate_header_bad_magic h hm)⟩

/-- Witness for C4 at the spec's boundary inputs: magic `0x00000000` and
version 2 are both rejected with a `RestoreError`; a good header-only file
is not rejected with a `RestoreError`. -/
theorem restore_error_iff_bad_header_witness :
    (∃ msg, restore_from_checkpoint false (fun _ => MemWriteOutcome.success)
      (write_header zeroMagicHeader) none = .error (GpuCheckpointError.RestoreError msg)) ∧
    (∃ msg, restore_from_checkpoint false (fun _ => MemWriteOutcome.success)
      (write_header versionTwoHeader) none = .error (GpuCheckpointError.RestoreError msg)) ∧
    ¬ (∃ msg, restore_from_checkpoint false (fun _ => MemWriteOutcome.success)
      (write_header goodEmptyHeader) none =
        .error (GpuCheckpointError.RestoreError msg)) := by
  have h1 : read_header (write_header zeroMagicHeader) = .ok (zeroMagicHeader, []) := by
    have := read_header_write_header zeroMagicHeader []
    rw [List.append_nil] at this
    rw [this]
    norm_num [zeroMagicHeader, u32lim, u64lim]
  have h2 : read_header (write_header versionTwoHeader) = .ok (versionTwoHeader, []) := by
    have := read_header_write_header versionTwoHeader []
    rw [List.append_nil] at this
    rw [this]
    norm_num [versionTwoHeader, u32lim, u64lim]
  have h3 : read_header (write_header goodEmptyHeader) = .ok (goodEmptyHeader, []) := by
    have := read_header_write_header goodEmptyHeader []
    rw [List.append_nil] at this
    rw [this]
    norm_num [goodEmptyHeader, u32lim, u64lim]
  refine ⟨(restore_error_iff_bad_header false _ _ none _ _ h1).mpr (Or.inl (by decide)),
    (restore_error_iff_bad_header false _ _ none _ _ h2).mpr (Or.inr (by decide)),
    fun hc => ?_⟩
  have := (restore_error_iff_bad_header false _ _ none _ _ h3).mp hc
  rcases this with hbad | hbad <;> exact hbad (by decide)

/-! ## Claim C9: checkpoint credits full sizes -/

/-- C9: whatever payload bytes the memory copy actually produces for each
allocation (complete copy, zeros for an absent `/proc/<pid>/mem`, or a
short-read truncation — `copyPayload` is universally quantified), the
returned `CheckpointMetadata.size_bytes` equals the sum of the allocation
sizes. -/
theorem checkpoint_size_bytes_full_credit (pid : Nat) (d : DetectionResult)
    (copyPayload : GpuAllocation → List Nat) (ts : Nat)
    (hsum : sumSizes d.allocations < u64lim) :
    (checkpoint_process pid d copyPayload ts).2.size_bytes = sumSizes d.allocations := by
  have h := checkpoint_body_total copyPayload d.allocations 0 (by norm_num [u64lim])
  simp [checkpoint_process, h, Nat.mod_eq_of_lt hsum]

/-- Witness for C9: the same detection credited identically with complete
zero payloads and with fully truncated (empty) payloads. -/
theorem checkpoint_size_bytes_full_credit_witness :
    (checkpoint_process 99 creditWitnessDetection (fun a => write_zeros a.size) 0).2.size_bytes
      = 0x2000 ∧
    (checkpoint_process 99 creditWitnessDetection (fun _ => []) 0).2.size_bytes = 0x2000 := by
  constructor
  · rw [checkpoint_size_bytes_full_credit 99 creditWitnessDetection _ 0 (by decide)]
    decide
  · rw [checkpoint_size_bytes_full_credit 99 creditWitnessDetection _ 0 (by decide)]
    decide

/-! ## Claim C8: restore write-failure handling (code bug) -/

/-- C8 is violated by the code: when the sliding write into an existing
target mem fails after `k = 8` payload bytes were already consumed from the
checkpoint file (the first `write_all` failing for an 8-byte allocation),
`restore_allocation` then skips `size = 8` FURTHER bytes. On a file holding
the 8 payload bytes followed by the 8 first bytes of the next entry,
everything is consumed (16 bytes) instead of the claimed total of exactly
`size = 8`, so the next allocation header is no longer correctly
positioned (the remaining file should be `List.replicate 8 1`, but is
`[]`); only the credited size (8) matches the claim. -/
theorem restore_allocation_failed_write_overconsumes :
    (restore_allocation true (MemWriteOutcome.failAfter 8) overconsumeAllocHeader
        (List.replicate 8 0 ++ List.replicate 8 1)).2 = [] ∧
    (List.replicate 8 0 ++ List.replicate 8 (1 : Nat)).drop 8 = List.replicate 8 1 ∧
    List.replicate 8 (1 : Nat) ≠ [] ∧
    (restore_allocation true (MemWriteOutcome.failAfter 8) overconsumeAllocHeader
        (List.replicate 8 0 ++ List.replicate 8 1)).1 = 8 := by
  refine ⟨by decide, by decide, by decide, by decide⟩

/-! ## Claim C6: `has_gpu_environment` (corrected) -/

/-- C6 counterexample: `LD_LIBRARY_PATH` is itself in the pattern list, so
an environment whose only variable is `LD_LIBRARY_PATH=/usr/lib` — a value
containing none of `cuda`/`nvidia`/`rocm` — still yields `true`, against
the claim's "returns true only when that variable's value contains cuda,
nvidia, or rocm". -/
theorem has_gpu_environment_ld_counterexample :
    ProcessScanner.has_gpu_environment [("LD_LIBRARY_PATH", "/usr/lib")] = true ∧
    strContains "/usr/lib" "cuda" = false ∧
    strContains "/usr/lib" "nvidia" = false ∧
    strContains "/usr/lib" "rocm" = false := by
  refine ⟨by decide, by decide, by decide, by decide⟩

/-- C6 amended: `has_gpu_environment` returns true exactly when some
environment key contains one of the six patterns; the extra
`LD_LIBRARY_PATH` value check never affects the result, because a key equal
to `LD_LIBRARY_PATH` already matches the key patterns. -/
theorem has_gpu_environment_key_scan (env_vars : List (String × String)) :
    ProcessScanner.has_gpu_environment env_vars =
      env_vars.any fun kv => gpu_env_patterns.any fun p => strContains kv.1 p := by
  unfold ProcessScanner.has_gpu_environment
  induction env_vars with
  | nil => rfl
  | cons kv l ih =>
    simp only [List.any_cons, ih]
    cases hbeq : kv.1 == "LD_LIBRARY_PATH" with
    | false => simp [hbeq]
    | true =>
      have hk : kv.1 = "LD_LIBRARY_PATH" := eq_of_beq hbeq
      have hA : (gpu_env_patterns.any fun p => strContains kv.1 p) = true := by
        rw [hk]
        decide
      simp [hA]

/-! ## Claim C7: classifier on `[anon:` + `cuda` regions (corrected) -/

/-- C7 counterexample: `classify_region` never returns `Managed` for a
region whose path starts with `[anon:` and contains `cuda`: a 4 KiB such
region gets no classification at all and a 256 MiB one is classified
`Unknown`. (The `[anon:` + `cuda` → `Managed` rule lives in the NVIDIA
detector's UVM scan, not in `classify_region`.) -/
theorem classify_region_anon_cuda_counterexample :
    MemoryMapParser.classify_region anonCudaSmall = none ∧
    (MemoryMapParser.classify_region anonCudaLarge).map (fun a => a.alloc_type) =
      some AllocationType.Unknown := by
  refine ⟨by decide, by decide⟩

/-- C7 amended: for a region whose path starts with `[anon:` and contains
`cuda` (and matches no other rule of `classify_region`), the classifier
returns an allocation of type `Unknown` when the region is at least 64 MiB
and `none` otherwise — never `Managed`. -/
theorem classify_region_anon_cuda (region : MemoryRegion) (p : String)
    (hp : region.pathname = some p)
    (hanon : strStartsWith p "[anon:" = true)
    (_hcuda : strContains p "cuda" = true)
    (hnv : strContains p "/dev/nvidia" = false)
    (hpci : strContains p "/sys/bus/pci/devices/" = false) :
    MemoryMapParser.classify_region region =
      if 1024 * 1024 * 64 ≤ u64sub region.end_ region.start then
        some { GpuAllocation.new region.start region.end_ AllocationType.Unknown with
               metadata := { protection := region.perms } }
      else none := by
  unfold MemoryMapParser.classify_region
  rw [hp]
  simp only [hnv, hanon, hpci, Bool.false_eq_true, if_false, Bool.or_true, Bool.true_and,
    Bool.false_and, Bool.and_eq_true, decide_eq_true_eq]
  split
  · rename_i hge
    simp [GpuAllocation.new]
  · rename_i hlt
    rfl

/-- Witness for the amended C7 at a concrete small region. -/
theorem classify_region_anon_cuda_witness :
    MemoryMapParser.classify_region anonCudaSmall = none := by
  have h := classify_region_anon_cuda anonCudaSmall "[anon:cuda_alloc]" rfl
    (by decide) (by decide) (by decide) (by decide)
  rw [h, if_neg (by decide)]
